import Mathlib

/-!
Shallow embedding of the AM provenance chaincode (`am_provenance.go`) and of
the benchmark harness throughput loop (`latency_test.js` / the unnamed
throughput script), together with proofs checking the repository
specification's claims against them.

Modelling conventions:
* The Fabric world state is a function from string keys to optional stored
  values.  Stored values are structured (`LedgerVal`): an encoded `Asset`, an
  encoded `ProvenanceEvent`, or raw undecodable bytes (`rawV`, modelling a
  corrupt record that `json.Unmarshal` rejects).
* Ambient chaincode services (client MSPID, transaction id, wall clock, and
  per-key get/put failures of the stub) are passed explicitly in a `ChainCtx`.
* Go's `json.Unmarshal` into a struct ignores unknown fields, so decoding a
  stored event as an `Asset` (or a stored asset as a `ProvenanceEvent`)
  succeeds and yields the zero value of every field; only `rawV` fails to
  decode.  `json.Marshal` of these all-string structs cannot fail, so the
  marshal error branches of the Go code are unreachable and not modelled.
* Each operation returns the (possibly partially) updated state together with
  `Except String Unit`, mirroring Go's `error` return; error strings follow
  the `fmt.Errorf` formats of the source.
-/

/-- `Asset` struct of `am_provenance.go`. -/
structure Asset where
  AssetID : String
  Owner : String
  CurrentLifecycleStage : String
  HistoryTxIDs : List String
deriving DecidableEq, Repr

/-- `ProvenanceEvent` struct of `am_provenance.go`; `omitempty` string fields
are modelled with `""` standing for an absent field. -/
structure ProvenanceEvent where
  EventType : String
  AgentID : String
  Timestamp : String
  OffChainDataHash : String
  OnChainDataPayload : String
  MaterialType : String
  MaterialBatchID : String
  SupplierID : String
  DesignFileHash : String
  DesignFileVersion : String
  MachineID : String
  MaterialBatchUsedID : String
  BuildJobID : String
  PrimaryInspectionResult : String
  TestStandardApplied : String
  FinalTestResult : String
  CertificateID : String
deriving DecidableEq, Repr

/-- The zero `ProvenanceEvent` (Go zero value / all fields omitted). -/
def emptyEvent : ProvenanceEvent :=
  ⟨"", "", "", "", "", "", "", "", "", "", "", "", "", "", "", "", ""⟩

/-- The zero `Asset` (Go zero value: empty strings, nil history). -/
def emptyAsset : Asset := ⟨"", "", "", []⟩

/-- A value stored in the world state: an encoded asset, an encoded event, or
raw bytes that decode as neither (corrupt record). -/
inductive LedgerVal where
  | assetV (a : Asset)
  | eventV (e : ProvenanceEvent)
  | rawV (bytes : String)
deriving DecidableEq, Repr

/-- The Fabric world state, keyed by strings. -/
def WState := String → Option LedgerVal

/-- The empty world state. -/
def emptyState : WState := fun _ => none

/-- Point update of the world state (`PutState` effect). -/
def upd (s : WState) (k : String) (v : LedgerVal) : WState :=
  fun k2 => if k2 = k then some v else s k2

/-- Ambient chaincode context: client identity, fresh transaction id, wall
clock reading, and the stub's per-key read/write failures for this
invocation. -/
structure ChainCtx where
  mspid : Except String String
  txID : String
  now : String
  getErr : String → Option String
  putErr : String → Option String

/-- A context in which every stub call succeeds. -/
def okCtx (msp tx now : String) : ChainCtx :=
  ⟨.ok msp, tx, now, fun _ => none, fun _ => none⟩

/-- Go `json.Unmarshal` of a stored value into `Asset`: succeeds leniently on
any decodable JSON object (unknown fields ignored, fields left at their zero
value), fails only on undecodable bytes. -/
def decodeAsset : LedgerVal → Option Asset
  | .assetV a => some a
  | .eventV _ => some emptyAsset
  | .rawV _ => none

/-- Go `json.Unmarshal` of a stored value into `ProvenanceEvent`, with the
same leniency. -/
def decodeEvent : LedgerVal → Option ProvenanceEvent
  | .eventV e => some e
  | .assetV _ => some emptyEvent
  | .rawV _ => none

/-- `recordEvent` (am_provenance.go:55): overwrites the event's timestamp with
the ledger clock and writes it under `"EVENT_" + txID`; returns the txID. -/
def recordEvent (ctx : ChainCtx) (s : WState) (event : ProvenanceEvent) :
    WState × Except String String :=
  let txID := ctx.txID
  let event2 := { event with Timestamp := ctx.now }
  match ctx.putErr ("EVENT_" ++ txID) with
  | some e => (s, .error ("failed to put event state: " ++ e))
  | none => (upd s ("EVENT_" ++ txID) (.eventV event2), .ok txID)

/-- `AssetExists` (am_provenance.go:311). -/
def assetExists (ctx : ChainCtx) (s : WState) (id : String) :
    Except String Bool :=
  match ctx.getErr id with
  | some e => .error ("failed to read from world state: " ++ e)
  | none => .ok (s id).isSome

/-- `ReadAsset` (am_provenance.go:265). -/
def readAsset (ctx : ChainCtx) (s : WState) (assetID : String) :
    Except String Asset :=
  match ctx.getErr assetID with
  | some e => .error ("failed to read from world state: " ++ e)
  | none =>
    match s assetID with
    | none => .error ("the asset " ++ assetID ++ " does not exist")
    | some v =>
      match decodeAsset v with
      | none => .error "json unmarshal error"
      | some a => .ok a

/-- Common body of the three creation operations: MSPID lookup, existence
check on the written key, event write, then asset write with a single-entry
history.  Each concrete operation instantiates `key`, the event builder and
the initial stage exactly as in the source. -/
def createAsset (ctx : ChainCtx) (s : WState) (key : String)
    (ev : String → ProvenanceEvent) (stage : String) :
    WState × Except String Unit :=
  match ctx.mspid with
  | .error e => (s, .error ("failed to get client MSPID: " ++ e))
  | .ok msp =>
    match assetExists ctx s key with
    | .error e => (s, .error e)
    | .ok true => (s, .error ("the asset " ++ key ++ " already exists"))
    | .ok false =>
      match recordEvent ctx s (ev msp) with
      | (s1, .error e) => (s1, .error e)
      | (s1, .ok txID) =>
        match ctx.putErr key with
        | some e => (s1, .error e)
        | none => (upd s1 key (.assetV ⟨key, msp, stage, [txID]⟩), .ok ())

/-- Common body of the two update operations: MSPID lookup, `ReadAsset`, event
write, then asset write with the new stage and the transaction id appended to
the history. -/
def updateAsset (ctx : ChainCtx) (s : WState) (key : String)
    (ev : String → ProvenanceEvent) (newStage : String) :
    WState × Except String Unit :=
  match ctx.mspid with
  | .error e => (s, .error ("failed to get client MSPID: " ++ e))
  | .ok msp =>
    match readAsset ctx s key with
    | .error e => (s, .error e)
    | .ok asset =>
      match recordEvent ctx s (ev msp) with
      | (s1, .error e) => (s1, .error e)
      | (s1, .ok txID) =>
        match ctx.putErr key with
        | some e => (s1, .error e)
        | none =>
          (upd s1 key (.assetV { asset with
              CurrentLifecycleStage := newStage,
              HistoryTxIDs := asset.HistoryTxIDs ++ [txID] }), .ok ())

/-- Event built by `CreateMaterialCertification` (am_provenance.go:86). -/
def matCertEvent (materialType materialBatchID supplierID offChainDataHash
    msp : String) : ProvenanceEvent :=
  { emptyEvent with
    EventType := "MATERIAL_CERTIFICATION_LIGHTWEIGHT"
    AgentID := msp
    OffChainDataHash := offChainDataHash
    MaterialType := materialType
    MaterialBatchID := materialBatchID
    SupplierID := supplierID }

/-- Event built by `CreateMaterialCertification_Naive` (am_provenance.go:131). -/
def naiveCertEvent (materialType materialBatchID supplierID fullDataPayload
    msp : String) : ProvenanceEvent :=
  { emptyEvent with
    EventType := "MATERIAL_CERTIFICATION_NAIVE"
    AgentID := msp
    OnChainDataPayload := fullDataPayload
    MaterialType := materialType
    MaterialBatchID := materialBatchID
    SupplierID := supplierID }

/-- Event built by `CreatePrintJobStart` (am_provenance.go:173). -/
def printStartEvent (machineID materialBatchUsedID designFileHash buildJobID
    offChainDataHash msp : String) : ProvenanceEvent :=
  { emptyEvent with
    EventType := "PRINT_JOB_START"
    AgentID := msp
    OffChainDataHash := offChainDataHash
    MachineID := machineID
    MaterialBatchUsedID := materialBatchUsedID
    DesignFileHash := designFileHash
    BuildJobID := buildJobID }

/-- Event built by `CreatePrintJobCompletion` (am_provenance.go:209). -/
def printCompletionEvent (buildJobID inspectionResult offChainDataHash
    msp : String) : ProvenanceEvent :=
  { emptyEvent with
    EventType := "PRINT_JOB_COMPLETION"
    AgentID := msp
    OffChainDataHash := offChainDataHash
    BuildJobID := buildJobID
    PrimaryInspectionResult := inspectionResult }

/-- Event built by `CreateQACertify` (am_provenance.go:239). -/
def qaCertifyEvent (testStandard testResult certificateID offChainDataHash
    msp : String) : ProvenanceEvent :=
  { emptyEvent with
    EventType := "QA_CERTIFY"
    AgentID := msp
    OffChainDataHash := offChainDataHash
    TestStandardApplied := testStandard
    FinalTestResult := testResult
    CertificateID := certificateID }

/-- `CreateMaterialCertification` (am_provenance.go:74): lightweight model,
asset key is the caller-supplied id. -/
def createMaterialCertification (ctx : ChainCtx) (s : WState)
    (assetID materialType materialBatchID supplierID offChainDataHash :
      String) : WState × Except String Unit :=
  createAsset ctx s assetID
    (matCertEvent materialType materialBatchID supplierID offChainDataHash)
    "MATERIAL_CERTIFIED"

/-- `CreateMaterialCertification_Naive` (am_provenance.go:117): naive model,
asset key is `"NAIVE_" + assetID`. -/
def createMaterialCertificationNaive (ctx : ChainCtx) (s : WState)
    (assetID materialType materialBatchID supplierID fullDataPayload :
      String) : WState × Except String Unit :=
  createAsset ctx s ("NAIVE_" ++ assetID)
    (naiveCertEvent materialType materialBatchID supplierID fullDataPayload)
    "MATERIAL_CERTIFIED_NAIVE"

/-- `CreatePrintJobStart` (am_provenance.go:161). -/
def createPrintJobStart (ctx : ChainCtx) (s : WState)
    (assetID machineID materialBatchUsedID designFileHash buildJobID
      offChainDataHash : String) : WState × Except String Unit :=
  createAsset ctx s assetID
    (printStartEvent machineID materialBatchUsedID designFileHash buildJobID
      offChainDataHash)
    "IN_PRODUCTION"

/-- `CreatePrintJobCompletion` (am_provenance.go:200): unconditionally moves
the asset it read to `AWAITING_QA`. -/
def createPrintJobCompletion (ctx : ChainCtx) (s : WState)
    (assetID buildJobID inspectionResult offChainDataHash : String) :
    WState × Except String Unit :=
  updateAsset ctx s assetID
    (printCompletionEvent buildJobID inspectionResult offChainDataHash)
    "AWAITING_QA"

/-- `CreateQACertify` (am_provenance.go:230): moves the asset it read to
`CERTIFIED` exactly when the test result is `CERTIFIED_FIT_FOR_USE`, and to
`REJECTED` otherwise. -/
def createQACertify (ctx : ChainCtx) (s : WState)
    (assetID testStandard testResult certificateID offChainDataHash :
      String) : WState × Except String Unit :=
  updateAsset ctx s assetID
    (qaCertifyEvent testStandard testResult certificateID offChainDataHash)
    (if testResult = "CERTIFIED_FIT_FOR_USE" then "CERTIFIED" else "REJECTED")

/-- Per-entry event resolution performed by the `GetAssetHistory` loop
(am_provenance.go:288-304): `none` when the stub read fails, the key is
unbound, or the record does not decode as an event. -/
def resolveEvent (ctx : ChainCtx) (s : WState) (txID : String) :
    Option ProvenanceEvent :=
  match ctx.getErr ("EVENT_" ++ txID) with
  | some _ => none
  | none =>
    match s ("EVENT_" ++ txID) with
    | none => none
    | some v => decodeEvent v

/-- The `GetAssetHistory` loop: failures are skipped (`continue` after a
warning), successes are appended in `historyTxIDs` order. -/
def historyLoop (ctx : ChainCtx) (s : WState) :
    List String → List ProvenanceEvent
  | [] => []
  | t :: ts =>
    match resolveEvent ctx s t with
    | none => historyLoop ctx s ts
    | some e => e :: historyLoop ctx s ts

/-- `GetAssetHistory` (am_provenance.go:282). -/
def getAssetHistory (ctx : ChainCtx) (s : WState) (assetID : String) :
    Except String (List ProvenanceEvent) :=
  match readAsset ctx s assetID with
  | .error e => .error e
  | .ok a => .ok (historyLoop ctx s a.HistoryTxIDs)

/-- One chaincode invocation with its caller-supplied arguments. -/
inductive Op where
  | matCert (assetID materialType materialBatchID supplierID
      offChainDataHash : String)
  | matCertNaive (assetID materialType materialBatchID supplierID
      fullDataPayload : String)
  | printStart (assetID machineID materialBatchUsedID designFileHash
      buildJobID offChainDataHash : String)
  | printComplete (assetID buildJobID inspectionResult
      offChainDataHash : String)
  | qaCertify (assetID testStandard testResult certificateID
      offChainDataHash : String)

/-- Dispatch an invocation against a world state. -/
def applyOp (ctx : ChainCtx) : Op → WState → WState × Except String Unit
  | .matCert a mt mb sup h, s => createMaterialCertification ctx s a mt mb sup h
  | .matCertNaive a mt mb sup p, s =>
      createMaterialCertificationNaive ctx s a mt mb sup p
  | .printStart a m mu d b h, s => createPrintJobStart ctx s a m mu d b h
  | .printComplete a b i h, s => createPrintJobCompletion ctx s a b i h
  | .qaCertify a st r c h, s => createQACertify ctx s a st r c h

/-- The asset key an invocation writes (the naive model derives its key by
prefixing, am_provenance.go:123). -/
def writtenKeyOf : Op → String
  | .matCert a _ _ _ _ => a
  | .matCertNaive a _ _ _ _ => "NAIVE_" ++ a
  | .printStart a _ _ _ _ _ => a
  | .printComplete a _ _ _ => a
  | .qaCertify a _ _ _ _ => a

/-- Whether a key lies in the event namespace, i.e. begins with `EVENT_`. -/
def hasEventKeyForm : List Char → Bool
  | c1 :: c2 :: c3 :: c4 :: c5 :: c6 :: _ =>
      c1 == 'E' && c2 == 'V' && c3 == 'E' && c4 == 'N' && c5 == 'T' && c6 == '_'
  | _ => false

/-- Whether a key begins with `NAIVE_` (the naive model's key namespace). -/
def hasNaiveKeyForm : List Char → Bool
  | c1 :: c2 :: c3 :: c4 :: c5 :: c6 :: _ =>
      c1 == 'N' && c2 == 'A' && c3 == 'I' && c4 == 'V' && c5 == 'E' && c6 == '_'
  | _ => false

/-- An invocation whose written asset key stays out of the event namespace. -/
def SafeOp (op : Op) : Prop := hasEventKeyForm (writtenKeyOf op).data = false

/-- World states reachable from the empty ledger by chaincode invocations
whose asset keys stay out of the `EVENT_` namespace (arbitrary contexts, so
all stub-failure interleavings are covered). -/
inductive Reached : WState → Prop where
  | init : Reached emptyState
  | step (ctx : ChainCtx) (op : Op) (s : WState) :
      Reached s → SafeOp op → Reached (applyOp ctx op s).1

/-- Invariant maintained by the chaincode on safe asset ids: keys in the
`EVENT_` namespace hold only events, all other bound keys hold assets, and
every history entry of every stored asset resolves to a stored event. -/
def GoodState (s : WState) : Prop :=
  (∀ k v, s k = some v → hasEventKeyForm k.data = true →
    ∃ e, v = .eventV e) ∧
  (∀ k v, s k = some v → hasEventKeyForm k.data = false →
    ∃ a, v = .assetV a ∧
      ∀ t ∈ a.HistoryTxIDs, ∃ e, s ("EVENT_" ++ t) = some (.eventV e))

/-! ### Benchmark harness throughput loop (testThroughput of latency_test.js
and of the unnamed throughput script; the two bodies are identical) -/

/-- The batching loop `for (let i = 0; i < transactions.length; i += concurrency)`
with chunks `transactions.slice(i, i + concurrency)`, written with explicit
fuel (the JS loop advances by `concurrency` per iteration, so `l.length` fuel
suffices whenever `concurrency` is positive). -/
def chunkLoop {α : Type} (c : Nat) : Nat → List α → List (List α)
  | _, [] => []
  | 0, _ :: _ => []
  | fuel + 1, x :: xs => (x :: xs).take c :: chunkLoop c fuel ((x :: xs).drop c)

/-- The batches the harness forms for a transaction list. -/
def chunksOf {α : Type} (c : Nat) (l : List α) : List (List α) :=
  chunkLoop c l.length l

/-- Sequential batch submission with `Promise.all` semantics: a batch
succeeds only if every call in it succeeds; the first failing batch aborts
the loop, so later batches are never submitted.  Returns the submitted
batches and the overall verdict. -/
def submitBatches {α : Type} (ok : α → Bool) :
    List (List α) → List (List α) × Bool
  | [] => ([], true)
  | b :: bs =>
    if b.all ok then
      let r := submitBatches ok bs
      (b :: r.1, r.2)
    else ([b], false)

/-- `testThroughput`: partitions the synthesized calls into batches of size
`concurrency`, submits them sequentially, and reports
`txCount / totalTimeSec` on success and `0` on any failure (the catch
branch).  Elapsed wall time is ambient in the source; here it is the measured
`totalTimeMs` passed explicitly.  Also returns the batches submitted. -/
def testThroughput {α : Type} (ok : α → Bool) (txs : List α)
    (concurrency : Nat) (elapsedMs : Nat) : ℚ × List (List α) :=
  let batches := chunksOf concurrency txs
  let r := submitBatches ok batches
  (if r.2 then (txs.length : ℚ) / ((elapsedMs : ℚ) / 1000) else 0, r.1)


/-! ### Concrete fixtures used by witness theorems -/

/-- A fully-succeeding context for organization 1. -/
def wCtx1 : ChainCtx := okCtx "Org1MSP" "t1" "2025-01-01T00:00:00Z"

/-- A fully-succeeding context for organization 2 with a fresh txID. -/
def wCtx2 : ChainCtx := okCtx "Org2MSP" "t2" "2025-01-01T00:00:01Z"

/-- A concrete asset `A` at a given stage with one history entry. -/
def wAsset (stage : String) : Asset := ⟨"A", "Org1MSP", stage, ["t0"]⟩

/-- A ledger holding only asset `A` at the given stage. -/
def wStateWith (stage : String) : WState :=
  upd emptyState "A" (.assetV (wAsset stage))

/-- A ledger holding assets at both key `A` and key `NAIVE_A`. -/
def wStateDup : WState :=
  upd (upd emptyState "A" (.assetV (wAsset "MATERIAL_CERTIFIED")))
    "NAIVE_A" (.assetV ⟨"NAIVE_A", "Org1MSP", "MATERIAL_CERTIFIED_NAIVE", ["t0"]⟩)

/-- A concrete asset whose middle history entry will not resolve. -/
def wHistAsset : Asset := ⟨"A", "Org1MSP", "AWAITING_QA", ["t1", "tbad", "t2"]⟩

/-- A concrete stored event. -/
def wEvent (ts : String) : ProvenanceEvent :=
  { emptyEvent with EventType := "E", Timestamp := ts }

/-- A ledger holding `wHistAsset` and events for its first and last history
entries but nothing for the middle entry. -/
def wStateHist : WState :=
  upd (upd (upd emptyState "A" (.assetV wHistAsset))
      "EVENT_t1" (.eventV (wEvent "T1")))
    "EVENT_t2" (.eventV (wEvent "T2"))

/-- A context whose every `PutState` fails. -/
def wCtxFail : ChainCtx :=
  ⟨.ok "Org1MSP", "t1", "2025-01-01T00:00:00Z", fun _ => none,
    fun _ => some "put failed"⟩

/-! ### Basic facts about state updates and key namespaces -/

theorem upd_self (s : WState) (k : String) (v : LedgerVal) :
    upd s k v k = some v := by simp [upd]

theorem upd_ne (s : WState) (k k2 : String) (v : LedgerVal) (h : k2 ≠ k) :
    upd s k v k2 = s k2 := by simp [upd, h]

theorem data_event_key (t : String) :
    ("EVENT_" ++ t).data = 'E' :: 'V' :: 'E' :: 'N' :: 'T' :: '_' :: t.data := by
  rw [String.data_append]; rfl

theorem data_naive_key (t : String) :
    ("NAIVE_" ++ t).data = 'N' :: 'A' :: 'I' :: 'V' :: 'E' :: '_' :: t.data := by
  rw [String.data_append]; rfl

theorem eventKeyForm_event (t : String) :
    hasEventKeyForm ("EVENT_" ++ t).data = true := by
  rw [data_event_key]; rfl

theorem eventKeyForm_naive (t : String) :
    hasEventKeyForm ("NAIVE_" ++ t).data = false := by
  rw [data_naive_key]; rfl

theorem naiveKeyForm_naive (t : String) :
    hasNaiveKeyForm ("NAIVE_" ++ t).data = true := by
  rw [data_naive_key]; rfl

theorem ne_event_key_of_form_false (k t : String)
    (h : hasEventKeyForm k.data = false) : k ≠ "EVENT_" ++ t := by
  intro he
  rw [he, eventKeyForm_event] at h
  cases h

theorem ne_naive_key_of_form_false (k t : String)
    (h : hasNaiveKeyForm k.data = false) : k ≠ "NAIVE_" ++ t := by
  intro he
  rw [he, naiveKeyForm_naive] at h
  cases h

theorem naive_key_ne_event_key (a t : String) :
    "NAIVE_" ++ a ≠ "EVENT_" ++ t :=
  ne_event_key_of_form_false _ _ (eventKeyForm_naive a)

/-! ### Characterization of the operation bodies on each control path -/

theorem createAsset_success (ctx : ChainCtx) (s : WState) (key : String)
    (ev : String → ProvenanceEvent) (stage msp : String)
    (hm : ctx.mspid = .ok msp) (hg : ctx.getErr key = none)
    (hk : s key = none) (hpe : ctx.putErr ("EVENT_" ++ ctx.txID) = none)
    (hpk : ctx.putErr key = none) :
    createAsset ctx s key ev stage =
      (upd (upd s ("EVENT_" ++ ctx.txID)
          (.eventV { ev msp with Timestamp := ctx.now }))
        key (.assetV ⟨key, msp, stage, [ctx.txID]⟩), .ok ()) := by
  simp [createAsset, assetExists, recordEvent, hm, hg, hk, hpe, hpk]

theorem createAsset_exists (ctx : ChainCtx) (s : WState) (key : String)
    (ev : String → ProvenanceEvent) (stage msp : String) (v : LedgerVal)
    (hm : ctx.mspid = .ok msp) (hg : ctx.getErr key = none)
    (hk : s key = some v) :
    createAsset ctx s key ev stage =
      (s, .error ("the asset " ++ key ++ " already exists")) := by
  simp [createAsset, assetExists, hm, hg, hk]

theorem updateAsset_success (ctx : ChainCtx) (s : WState) (key : String)
    (ev : String → ProvenanceEvent) (newStage msp : String) (a : Asset)
    (hm : ctx.mspid = .ok msp) (hg : ctx.getErr key = none)
    (hk : s key = some (.assetV a))
    (hpe : ctx.putErr ("EVENT_" ++ ctx.txID) = none)
    (hpk : ctx.putErr key = none) :
    updateAsset ctx s key ev newStage =
      (upd (upd s ("EVENT_" ++ ctx.txID)
          (.eventV { ev msp with Timestamp := ctx.now }))
        key (.assetV { a with
          CurrentLifecycleStage := newStage,
          HistoryTxIDs := a.HistoryTxIDs ++ [ctx.txID] }),
       .ok ()) := by
  simp [updateAsset, readAsset, recordEvent, decodeAsset, hm, hg, hk, hpe, hpk]

theorem updateAsset_absent (ctx : ChainCtx) (s : WState) (key : String)
    (ev : String → ProvenanceEvent) (newStage msp : String)
    (hm : ctx.mspid = .ok msp) (hg : ctx.getErr key = none)
    (hk : s key = none) :
    updateAsset ctx s key ev newStage =
      (s, .error ("the asset " ++ key ++ " does not exist")) := by
  simp [updateAsset, readAsset, hm, hg, hk]

theorem createAsset_state_shape (ctx : ChainCtx) (s : WState) (key : String)
    (ev : String → ProvenanceEvent) (stage : String) :
    (createAsset ctx s key ev stage).1 = s ∨
    (∃ msp, ctx.mspid = .ok msp ∧ s key = none ∧
      ((createAsset ctx s key ev stage).1 =
          upd s ("EVENT_" ++ ctx.txID)
            (.eventV { ev msp with Timestamp := ctx.now }) ∨
       (createAsset ctx s key ev stage).1 =
          upd (upd s ("EVENT_" ++ ctx.txID)
              (.eventV { ev msp with Timestamp := ctx.now }))
            key (.assetV ⟨key, msp, stage, [ctx.txID]⟩))) := by
  rcases hm : ctx.mspid with e | msp
  · left; simp [createAsset, hm]
  · rcases hg : ctx.getErr key with _ | e2
    · rcases hk : s key with _ | v
      · rcases hpe : ctx.putErr ("EVENT_" ++ ctx.txID) with _ | e3
        · rcases hpk : ctx.putErr key with _ | e4
          · right
            exact ⟨msp, rfl, rfl, .inr (by
              simp [createAsset, assetExists, recordEvent, hm, hg, hk, hpe,
                hpk])⟩
          · right
            exact ⟨msp, rfl, rfl, .inl (by
              simp [createAsset, assetExists, recordEvent, hm, hg, hk, hpe,
                hpk])⟩
        · left
          simp [createAsset, assetExists, recordEvent, hm, hg, hk, hpe]
      · left; simp [createAsset, assetExists, hm, hg, hk]
    · left; simp [createAsset, assetExists, hm, hg]

theorem updateAsset_state_shape (ctx : ChainCtx) (s : WState) (key : String)
    (ev : String → ProvenanceEvent) (newStage : String) :
    (updateAsset ctx s key ev newStage).1 = s ∨
    (∃ msp v a, ctx.mspid = .ok msp ∧ s key = some v ∧
      decodeAsset v = some a ∧
      ((updateAsset ctx s key ev newStage).1 =
          upd s ("EVENT_" ++ ctx.txID)
            (.eventV { ev msp with Timestamp := ctx.now }) ∨
       (updateAsset ctx s key ev newStage).1 =
          upd (upd s ("EVENT_" ++ ctx.txID)
              (.eventV { ev msp with Timestamp := ctx.now }))
            key (.assetV { a with
              CurrentLifecycleStage := newStage,
              HistoryTxIDs := a.HistoryTxIDs ++ [ctx.txID] }))) := by
  rcases hm : ctx.mspid with e | msp
  · left; simp [updateAsset, hm]
  · rcases hg : ctx.getErr key with _ | e2
    · rcases hk : s key with _ | v
      · left; simp [updateAsset, readAsset, hm, hg, hk]
      · rcases hd : decodeAsset v with _ | a
        · left; simp [updateAsset, readAsset, hm, hg, hk, hd]
        · rcases hpe : ctx.putErr ("EVENT_" ++ ctx.txID) with _ | e3
          · rcases hpk : ctx.putErr key with _ | e4
            · right
              exact ⟨msp, v, a, rfl, rfl, hd, .inr (by
                simp [updateAsset, readAsset, recordEvent, hm, hg, hk, hd,
                  hpe, hpk])⟩
            · right
              exact ⟨msp, v, a, rfl, rfl, hd, .inl (by
                simp [updateAsset, readAsset, recordEvent, hm, hg, hk, hd,
                  hpe, hpk])⟩
          · left
            simp [updateAsset, readAsset, recordEvent, hm, hg, hk, hd, hpe]
    · left; simp [updateAsset, readAsset, hm, hg]

/-! ### The key-namespace / history-resolution invariant -/

theorem goodState_empty : GoodState emptyState := by
  constructor
  · intro k v h
    cases h
  · intro k v h
    cases h

theorem goodState_upd_event (s : WState) (t : String) (e : ProvenanceEvent)
    (h : GoodState s) : GoodState (upd s ("EVENT_" ++ t) (.eventV e)) := by
  constructor
  · intro k v hk hf
    by_cases hke : k = "EVENT_" ++ t
    · rw [hke, upd_self] at hk
      exact ⟨e, (Option.some_inj.mp hk).symm⟩
    · rw [upd_ne s _ k _ hke] at hk
      exact h.1 k v hk hf
  · intro k v hk hf
    by_cases hke : k = "EVENT_" ++ t
    · rw [hke, eventKeyForm_event] at hf
      cases hf
    · rw [upd_ne s _ k _ hke] at hk
      obtain ⟨a, hva, hres⟩ := h.2 k v hk hf
      refine ⟨a, hva, fun t2 ht2 => ?_⟩
      by_cases h2 : ("EVENT_" ++ t2) = "EVENT_" ++ t
      · exact ⟨e, by rw [h2, upd_self]⟩
      · obtain ⟨e2, he2⟩ := hres t2 ht2
        exact ⟨e2, by rw [upd_ne s _ _ _ h2]; exact he2⟩

theorem goodState_upd_asset (s : WState) (key : String) (a : Asset)
    (h : GoodState s) (hkf : hasEventKeyForm key.data = false)
    (hres : ∀ t ∈ a.HistoryTxIDs, ∃ e, s ("EVENT_" ++ t) = some (.eventV e)) :
    GoodState (upd s key (.assetV a)) := by
  constructor
  · intro k v hk hf
    by_cases hke : k = key
    · rw [hke] at hf
      rw [hf] at hkf
      cases hkf
    · rw [upd_ne s _ k _ hke] at hk
      exact h.1 k v hk hf
  · intro k v hk hf
    by_cases hke : k = key
    · rw [hke, upd_self] at hk
      refine ⟨a, (Option.some_inj.mp hk).symm, fun t2 ht2 => ?_⟩
      obtain ⟨e2, he2⟩ := hres t2 ht2
      have hne : ("EVENT_" ++ t2) ≠ key := by
        intro hx
        rw [← hx, eventKeyForm_event] at hkf
        cases hkf
      exact ⟨e2, by rw [upd_ne s _ _ _ hne]; exact he2⟩
    · rw [upd_ne s _ k _ hke] at hk
      obtain ⟨a2, hva, hres2⟩ := h.2 k v hk hf
      refine ⟨a2, hva, fun t2 ht2 => ?_⟩
      obtain ⟨e2, he2⟩ := hres2 t2 ht2
      have hne : ("EVENT_" ++ t2) ≠ key := by
        intro hx
        rw [← hx, eventKeyForm_event] at hkf
        cases hkf
      exact ⟨e2, by rw [upd_ne s _ _ _ hne]; exact he2⟩

theorem goodState_createAsset (ctx : ChainCtx) (s : WState) (key : String)
    (ev : String → ProvenanceEvent) (stage : String) (h : GoodState s)
    (hkf : hasEventKeyForm key.data = false) :
    GoodState (createAsset ctx s key ev stage).1 := by
  rcases createAsset_state_shape ctx s key ev stage with hs | ⟨msp, _, _, hs | hs⟩
  · rw [hs]; exact h
  · rw [hs]; exact goodState_upd_event s ctx.txID _ h
  · rw [hs]
    refine goodState_upd_asset _ key _
      (goodState_upd_event s ctx.txID _ h) hkf fun t2 ht2 => ?_
    have : t2 = ctx.txID := by simpa using ht2
    rw [this]
    exact ⟨_, upd_self _ _ _⟩

theorem goodState_updateAsset (ctx : ChainCtx) (s : WState) (key : String)
    (ev : String → ProvenanceEvent) (newStage : String) (h : GoodState s)
    (hkf : hasEventKeyForm key.data = false) :
    GoodState (updateAsset ctx s key ev newStage).1 := by
  rcases updateAsset_state_shape ctx s key ev newStage with
    hs | ⟨msp, v, a, _, hk, hd, hs | hs⟩
  · rw [hs]; exact h
  · rw [hs]; exact goodState_upd_event s ctx.txID _ h
  · rw [hs]
    refine goodState_upd_asset _ key _
      (goodState_upd_event s ctx.txID _ h) hkf fun t2 ht2 => ?_
    simp only [List.mem_append, List.mem_singleton] at ht2
    rcases ht2 with ht2 | ht2
    · obtain ⟨a0, hva, hres0⟩ := h.2 key v hk hkf
      rw [hva] at hd
      have ha : a0 = a := by
        simpa [decodeAsset] using hd
      obtain ⟨e2, he2⟩ := hres0 t2 (ha ▸ ht2)
      by_cases h2 : ("EVENT_" ++ t2) = "EVENT_" ++ ctx.txID
      · exact ⟨_, by rw [h2, upd_self]⟩
      · exact ⟨e2, by rw [upd_ne s _ _ _ h2]; exact he2⟩
    · rw [ht2]
      exact ⟨_, upd_self _ _ _⟩

theorem reached_goodState (s : WState) (h : Reached s) : GoodState s := by
  induction h with
  | init => exact goodState_empty
  | step ctx op s2 _ hsafe ih =>
    cases op with
    | matCert a mt mb sup hh =>
      exact goodState_createAsset ctx s2 a _ _ ih hsafe
    | matCertNaive a mt mb sup p =>
      exact goodState_createAsset ctx s2 ("NAIVE_" ++ a) _ _ ih hsafe
    | printStart a m mu d b hh =>
      exact goodState_createAsset ctx s2 a _ _ ih hsafe
    | printComplete a b i hh =>
      exact goodState_updateAsset ctx s2 a _ _ ih hsafe
    | qaCertify a st r c hh =>
      exact goodState_updateAsset ctx s2 a _ _ ih hsafe

/-! ### Append-only history facts -/

theorem createAsset_hist_extend (ctx : ChainCtx) (s : WState) (key : String)
    (ev : String → ProvenanceEvent) (stage k : String) (a a2 : Asset)
    (h1 : s k = some (.assetV a))
    (h2 : (createAsset ctx s key ev stage).1 k = some (.assetV a2)) :
    ∃ rest, a2.HistoryTxIDs = a.HistoryTxIDs ++ rest := by
  rcases createAsset_state_shape ctx s key ev stage with
    hs | ⟨msp, _, hkn, hs | hs⟩
  · rw [hs, h1] at h2
    have ha : a = a2 := by simpa using h2
    exact ⟨[], by simp [← ha]⟩
  · rw [hs] at h2
    by_cases hke : k = "EVENT_" ++ ctx.txID
    · rw [hke, upd_self] at h2
      simp at h2
    · rw [upd_ne s _ k _ hke, h1] at h2
      have ha : a = a2 := by simpa using h2
      exact ⟨[], by simp [← ha]⟩
  · rw [hs] at h2
    by_cases hkk : k = key
    · rw [hkk, hkn] at h1
      cases h1
    · rw [upd_ne _ _ k _ hkk] at h2
      by_cases hke : k = "EVENT_" ++ ctx.txID
      · rw [hke, upd_self] at h2
        simp at h2
      · rw [upd_ne s _ k _ hke, h1] at h2
        have ha : a = a2 := by simpa using h2
        exact ⟨[], by simp [← ha]⟩

theorem updateAsset_hist_extend (ctx : ChainCtx) (s : WState) (key : String)
    (ev : String → ProvenanceEvent) (newStage k : String) (a a2 : Asset)
    (h1 : s k = some (.assetV a))
    (h2 : (updateAsset ctx s key ev newStage).1 k = some (.assetV a2)) :
    ∃ rest, a2.HistoryTxIDs = a.HistoryTxIDs ++ rest := by
  rcases updateAsset_state_shape ctx s key ev newStage with
    hs | ⟨msp, v, a0, _, hk, hd, hs | hs⟩
  · rw [hs, h1] at h2
    have ha : a = a2 := by simpa using h2
    exact ⟨[], by simp [← ha]⟩
  · rw [hs] at h2
    by_cases hke : k = "EVENT_" ++ ctx.txID
    · rw [hke, upd_self] at h2
      simp at h2
    · rw [upd_ne s _ k _ hke, h1] at h2
      have ha : a = a2 := by simpa using h2
      exact ⟨[], by simp [← ha]⟩
  · rw [hs] at h2
    by_cases hkk : k = key
    · rw [hkk, upd_self] at h2
      rw [hkk, hk] at h1
      have hv : v = .assetV a := by simpa using h1
      rw [hv] at hd
      have ha0 : a = a0 := by simpa [decodeAsset] using hd
      have ha2 : a2 = { a0 with
          CurrentLifecycleStage := newStage,
          HistoryTxIDs := a0.HistoryTxIDs ++ [ctx.txID] } := by
        simpa using h2.symm
      exact ⟨[ctx.txID], by rw [ha2, ← ha0]⟩
    · rw [upd_ne _ _ k _ hkk] at h2
      by_cases hke : k = "EVENT_" ++ ctx.txID
      · rw [hke, upd_self] at h2
        simp at h2
      · rw [upd_ne s _ k _ hke, h1] at h2
        have ha : a = a2 := by simpa using h2
        exact ⟨[], by simp [← ha]⟩

theorem applyOp_hist_extend (ctx : ChainCtx) (op : Op) (s : WState)
    (k : String) (a a2 : Asset) (h1 : s k = some (.assetV a))
    (h2 : (applyOp ctx op s).1 k = some (.assetV a2)) :
    ∃ rest, a2.HistoryTxIDs = a.HistoryTxIDs ++ rest := by
  cases op with
  | matCert x mt mb sup hh =>
    exact createAsset_hist_extend ctx s x _ _ k a a2 h1 h2
  | matCertNaive x mt mb sup p =>
    exact createAsset_hist_extend ctx s ("NAIVE_" ++ x) _ _ k a a2 h1 h2
  | printStart x m mu d b hh =>
    exact createAsset_hist_extend ctx s x _ _ k a a2 h1 h2
  | printComplete x b i hh =>
    exact updateAsset_hist_extend ctx s x _ _ k a a2 h1 h2
  | qaCertify x st r c hh =>
    exact updateAsset_hist_extend ctx s x _ _ k a a2 h1 h2

/-! ### History reconstruction facts -/

theorem historyLoop_eq_filterMap (ctx : ChainCtx) (s : WState)
    (l : List String) :
    historyLoop ctx s l = l.filterMap (resolveEvent ctx s) := by
  induction l with
  | nil => rfl
  | cons t ts ih =>
    cases h : resolveEvent ctx s t <;> simp [historyLoop, h, ih]

theorem length_filterMap_all_some {α β : Type} (f : α → Option β)
    (l : List α) (h : ∀ u ∈ l, (f u).isSome = true) :
    (l.filterMap f).length = l.length := by
  induction l with
  | nil => rfl
  | cons x xs ih =>
    rcases hf : f x with _ | b
    · exact absurd (h x (by simp)) (by simp [hf])
    · simp only [List.filterMap_cons, hf, List.length_cons]
      rw [ih fun u hu => h u (by simp [hu])]

theorem chunkLoop_flatten {α : Type} (c : Nat) (hc : 0 < c) :
    ∀ fuel (l : List α), l.length ≤ fuel → (chunkLoop c fuel l).flatten = l := by
  intro fuel
  induction fuel with
  | zero =>
    intro l hl
    rw [List.length_eq_zero.mp (Nat.le_zero.mp hl)]
    rfl
  | succ n ih =>
    intro l hl
    cases l with
    | nil => rfl
    | cons x xs =>
      have hdrop : ((x :: xs).drop c).length ≤ n := by
        rw [List.length_drop]
        have : (x :: xs).length ≤ n + 1 := hl
        omega
      simp only [chunkLoop, List.flatten_cons, ih _ hdrop]
      exact List.take_append_drop c (x :: xs)

theorem chunksOf_flatten {α : Type} (c : Nat) (hc : 0 < c) (l : List α) :
    (chunksOf c l).flatten = l :=
  chunkLoop_flatten c hc l.length l (Nat.le_refl _)

theorem submitBatches_all {α : Type} (ok : α → Bool) (bs : List (List α))
    (h : ∀ b ∈ bs, b.all ok = true) : submitBatches ok bs = (bs, true) := by
  induction bs with
  | nil => rfl
  | cons b bs2 ih =>
    simp only [submitBatches, h b (by simp),
      ih fun b2 hb2 => h b2 (by simp [hb2]), if_true]

theorem submitBatches_fail {α : Type} (ok : α → Bool)
    (pre : List (List α)) (b : List α) (post : List (List α))
    (hpre : ∀ x ∈ pre, x.all ok = true) (hb : b.all ok = false) :
    submitBatches ok (pre ++ b :: post) = (pre ++ [b], false) := by
  induction pre with
  | nil => simp [submitBatches, hb]
  | cons p ps ih =>
    have hrec := ih fun x hx => hpre x (by simp [hx])
    simp [submitBatches, hpre p (by simp), hrec]

/-! ### Claim theorems -/

theorem filterMap_nil_of_all_none {α β : Type} (f : α → Option β)
    (l : List α) (h : ∀ u ∈ l, f u = none) : l.filterMap f = [] := by
  induction l with
  | nil => rfl
  | cons x xs ih =>
    simp [List.filterMap_cons, h x (by simp),
      ih fun u hu => h u (by simp [hu])]

/-- C2: for an asset id already bound in the ledger, a second creation call
with that id (CreateMaterialCertification, CreatePrintJobStart, or
CreateMaterialCertification_Naive on its derived `NAIVE_` key) fails with the
already-exists error and returns the ledger state unchanged, so no event is
written and the original asset record keeps its owner, stage and history. -/
theorem claim2_duplicate_creation_rejected (ctx : ChainCtx) (s : WState)
    (id p1 p2 p3 p4 p5 msp : String) (hm : ctx.mspid = .ok msp) :
    (∀ v : LedgerVal, ctx.getErr id = none → s id = some v →
      createMaterialCertification ctx s id p1 p2 p3 p4 =
        (s, .error ("the asset " ++ id ++ " already exists"))) ∧
    (∀ v : LedgerVal, ctx.getErr id = none → s id = some v →
      createPrintJobStart ctx s id p1 p2 p3 p4 p5 =
        (s, .error ("the asset " ++ id ++ " already exists"))) ∧
    (∀ v : LedgerVal, ctx.getErr ("NAIVE_" ++ id) = none →
      s ("NAIVE_" ++ id) = some v →
      createMaterialCertificationNaive ctx s id p1 p2 p3 p4 =
        (s, .error ("the asset " ++ ("NAIVE_" ++ id) ++ " already exists"))) := by
  refine ⟨fun v hg hk => ?_, fun v hg hk => ?_, fun v hg hk => ?_⟩
  · exact createAsset_exists ctx s id _ _ msp v hm hg hk
  · exact createAsset_exists ctx s id _ _ msp v hm hg hk
  · exact createAsset_exists ctx s ("NAIVE_" ++ id) _ _ msp v hm hg hk

/-- Witness for C2 on a concrete ledger holding assets `A` and `NAIVE_A`. -/
theorem claim2_witness :
    createMaterialCertification wCtx1 wStateDup "A" "m" "b" "s" "h" =
      (wStateDup, .error ("the asset " ++ "A" ++ " already exists")) ∧
    createPrintJobStart wCtx1 wStateDup "A" "m" "b" "s" "h" "x" =
      (wStateDup, .error ("the asset " ++ "A" ++ " already exists")) ∧
    createMaterialCertificationNaive wCtx1 wStateDup "A" "m" "b" "s" "h" =
      (wStateDup,
        .error ("the asset " ++ ("NAIVE_" ++ "A") ++ " already exists")) := by
  have h := claim2_duplicate_creation_rejected wCtx1 wStateDup
    "A" "m" "b" "s" "h" "x" "Org1MSP" rfl
  exact ⟨h.1 (.assetV (wAsset "MATERIAL_CERTIFIED")) rfl (by decide),
    h.2.1 (.assetV (wAsset "MATERIAL_CERTIFIED")) rfl (by decide),
    h.2.2 (.assetV ⟨"NAIVE_A", "Org1MSP", "MATERIAL_CERTIFIED_NAIVE", ["t0"]⟩)
      rfl (by decide)⟩

/-- C6: the timestamp stored in a persisted event is the ledger-assigned
write-time value; the caller-supplied timestamp field is overwritten, so
`recordEvent` does not depend on it. -/
theorem claim6_ledger_assigned_timestamp :
    (∀ (ctx : ChainCtx) (s : WState) (ev : ProvenanceEvent) (ts : String),
      recordEvent ctx s { ev with Timestamp := ts } = recordEvent ctx s ev) ∧
    (∀ (ctx : ChainCtx) (s : WState) (ev : ProvenanceEvent),
      ctx.putErr ("EVENT_" ++ ctx.txID) = none →
      (recordEvent ctx s ev).1 ("EVENT_" ++ ctx.txID) =
        some (.eventV { ev with Timestamp := ctx.now })) := by
  constructor
  · intro ctx s ev ts
    cases ev
    rfl
  · intro ctx s ev hpe
    simp [recordEvent, hpe, upd]

/-- Witness for C6 at a concrete context and event. -/
theorem claim6_witness :
    (recordEvent wCtx1 emptyState { emptyEvent with Timestamp := "CALLER" } =
      recordEvent wCtx1 emptyState emptyEvent) ∧
    (recordEvent wCtx1 emptyState emptyEvent).1 ("EVENT_" ++ wCtx1.txID) =
      some (.eventV { emptyEvent with Timestamp := wCtx1.now }) :=
  ⟨claim6_ledger_assigned_timestamp.1 wCtx1 emptyState emptyEvent "CALLER",
   claim6_ledger_assigned_timestamp.2 wCtx1 emptyState emptyEvent rfl⟩

/-- C7: on an asset in stage `AWAITING_QA`, `CreateQACertify` succeeds and
sets the stage to `CERTIFIED` exactly when the test result is the string
`CERTIFIED_FIT_FOR_USE`, and to `REJECTED` for every other result string
(including the empty string), appending the transaction id to the history. -/
theorem claim7_qa_result_mapping (ctx : ChainCtx) (s : WState)
    (id testStandard testResult certID hash msp : String) (a : Asset)
    (hm : ctx.mspid = .ok msp) (hg : ctx.getErr id = none)
    (hv : s id = some (.assetV a))
    (hstage : a.CurrentLifecycleStage = "AWAITING_QA")
    (hpe : ctx.putErr ("EVENT_" ++ ctx.txID) = none)
    (hpk : ctx.putErr id = none) :
    (createQACertify ctx s id testStandard testResult certID hash).2 =
      .ok () ∧
    (createQACertify ctx s id testStandard testResult certID hash).1 id =
      some (.assetV { a with
        CurrentLifecycleStage :=
          if testResult = "CERTIFIED_FIT_FOR_USE" then "CERTIFIED"
          else "REJECTED",
        HistoryTxIDs := a.HistoryTxIDs ++ [ctx.txID] }) := by
  have h := updateAsset_success ctx s id
    (qaCertifyEvent testStandard testResult certID hash)
    (if testResult = "CERTIFIED_FIT_FOR_USE" then "CERTIFIED" else "REJECTED")
    msp a hm hg hv hpe hpk
  constructor
  · unfold createQACertify
    rw [h]
  · unfold createQACertify
    rw [h]
    exact upd_self _ _ _

/-- Witness for C7: a passing result certifies, the empty result rejects. -/
theorem claim7_witness :
    (createQACertify wCtx1 (wStateWith "AWAITING_QA") "A" "ASTM"
        "CERTIFIED_FIT_FOR_USE" "C-1" "h").1 "A" =
      some (.assetV { wAsset "AWAITING_QA" with
        CurrentLifecycleStage :=
          if "CERTIFIED_FIT_FOR_USE" = "CERTIFIED_FIT_FOR_USE" then
            "CERTIFIED"
          else "REJECTED",
        HistoryTxIDs := (wAsset "AWAITING_QA").HistoryTxIDs ++ [wCtx1.txID] }) ∧
    (createQACertify wCtx1 (wStateWith "AWAITING_QA") "A" "ASTM"
        "" "C-1" "h").1 "A" =
      some (.assetV { wAsset "AWAITING_QA" with
        CurrentLifecycleStage :=
          if "" = "CERTIFIED_FIT_FOR_USE" then "CERTIFIED" else "REJECTED",
        HistoryTxIDs := (wAsset "AWAITING_QA").HistoryTxIDs ++ [wCtx1.txID] }) :=
  ⟨(claim7_qa_result_mapping wCtx1 (wStateWith "AWAITING_QA") "A" "ASTM"
      "CERTIFIED_FIT_FOR_USE" "C-1" "h" "Org1MSP" (wAsset "AWAITING_QA")
      rfl rfl (by decide) rfl rfl rfl).2,
   (claim7_qa_result_mapping wCtx1 (wStateWith "AWAITING_QA") "A" "ASTM"
      "" "C-1" "h" "Org1MSP" (wAsset "AWAITING_QA")
      rfl rfl (by decide) rfl rfl rfl).2⟩

/-- C10: `GetAssetHistory` fails exactly when `ReadAsset` fails (propagating
that error unchanged); for a readable asset it returns the per-entry
resolutions that succeed, in particular an empty history with no error when
no entry resolves. -/
theorem claim10_history_error_iff_read_error :
    (∀ (ctx : ChainCtx) (s : WState) (id : String),
      getAssetHistory ctx s id =
        Except.map (fun a => a.HistoryTxIDs.filterMap (resolveEvent ctx s))
          (readAsset ctx s id)) ∧
    (∀ (ctx : ChainCtx) (s : WState) (id : String) (a : Asset),
      readAsset ctx s id = .ok a →
      (∀ u ∈ a.HistoryTxIDs, resolveEvent ctx s u = none) →
      getAssetHistory ctx s id = .ok []) := by
  constructor
  · intro ctx s id
    rcases hr : readAsset ctx s id with e | a <;>
      simp [getAssetHistory, hr, Except.map, historyLoop_eq_filterMap]
  · intro ctx s id a hr hall
    simp [getAssetHistory, hr, historyLoop_eq_filterMap,
      filterMap_nil_of_all_none _ _ hall]

/-- Witness for C10: an existing asset none of whose entries resolve yields
an empty history and no error. -/
theorem claim10_witness :
    getAssetHistory wCtx1 (wStateWith "AWAITING_QA") "A" = .ok [] :=
  claim10_history_error_iff_read_error.2 wCtx1 (wStateWith "AWAITING_QA")
    "A" (wAsset "AWAITING_QA") rfl (by decide)

/-- C3: when exactly one entry of an existing asset's history fails to
resolve, `GetAssetHistory` returns the remaining entries' events, in the
original order, with no error; the returned list is one shorter than the
recorded history. -/
theorem claim3_single_bad_entry_skipped (ctx : ChainCtx) (s : WState)
    (id : String) (a : Asset) (l1 l2 : List String) (t : String)
    (hg : ctx.getErr id = none) (hv : s id = some (.assetV a))
    (hl : a.HistoryTxIDs = l1 ++ t :: l2)
    (hbad : resolveEvent ctx s t = none)
    (hgood : ∀ u ∈ l1 ++ l2, (resolveEvent ctx s u).isSome = true) :
    getAssetHistory ctx s id =
      .ok ((l1 ++ l2).filterMap (resolveEvent ctx s)) ∧
    ((l1 ++ l2).filterMap (resolveEvent ctx s)).length + 1 =
      a.HistoryTxIDs.length := by
  constructor
  · simp only [getAssetHistory, readAsset, hg, hv, decodeAsset]
    rw [historyLoop_eq_filterMap, hl]
    simp [List.filterMap_append, List.filterMap_cons, hbad]
  · rw [length_filterMap_all_some _ _ hgood, hl]
    simp [List.length_append]
    omega

/-- Witness for C3: history `[t1, tbad, t2]` where only `tbad` fails returns
the two resolvable events in order. -/
theorem claim3_witness :
    getAssetHistory wCtx1 wStateHist "A" =
      .ok (((["t1"] : List String) ++ ["t2"]).filterMap
        (resolveEvent wCtx1 wStateHist)) ∧
    (((["t1"] : List String) ++ ["t2"]).filterMap
        (resolveEvent wCtx1 wStateHist)).length + 1 =
      wHistAsset.HistoryTxIDs.length :=
  claim3_single_bad_entry_skipped wCtx1 wStateHist "A" wHistAsset
    ["t1"] ["t2"] "tbad" rfl (by decide) (by decide) (by decide) (by decide)

theorem createAsset_event_put_fail (ctx : ChainCtx) (s : WState)
    (key : String) (ev : String → ProvenanceEvent) (stage msg : String)
    (hpe : ctx.putErr ("EVENT_" ++ ctx.txID) = some msg) :
    (createAsset ctx s key ev stage).1 = s := by
  rcases hm : ctx.mspid with e | msp
  · simp [createAsset, hm]
  · rcases hg : ctx.getErr key with _ | eg
    · rcases hk : s key with _ | v
      · simp [createAsset, assetExists, recordEvent, hm, hg, hk, hpe]
      · simp [createAsset, assetExists, hm, hg, hk]
    · simp [createAsset, assetExists, hm, hg]

theorem updateAsset_event_put_fail (ctx : ChainCtx) (s : WState)
    (key : String) (ev : String → ProvenanceEvent) (newStage msg : String)
    (hpe : ctx.putErr ("EVENT_" ++ ctx.txID) = some msg) :
    (updateAsset ctx s key ev newStage).1 = s := by
  rcases hm : ctx.mspid with e | msp
  · simp [updateAsset, hm]
  · rcases hg : ctx.getErr key with _ | eg
    · rcases hk : s key with _ | v
      · simp [updateAsset, readAsset, hm, hg, hk]
      · rcases hd : decodeAsset v with _ | a
        · simp [updateAsset, readAsset, hm, hg, hk, hd]
        · simp [updateAsset, readAsset, recordEvent, hm, hg, hk, hd, hpe]
    · simp [updateAsset, readAsset, hm, hg]

/-- C1 counterexample: `CreatePrintJobCompletion` on an asset in the terminal
stage `CERTIFIED` is not rejected — it succeeds and overwrites the stage with
`AWAITING_QA`, contradicting the claim that operations from a wrong stage are
rejected. -/
theorem claim1_counterexample :
    (createPrintJobCompletion wCtx1 (wStateWith "CERTIFIED") "A" "B-1"
        "PASSED" "h1").2 = .ok () ∧
    (createPrintJobCompletion wCtx1 (wStateWith "CERTIFIED") "A" "B-1"
        "PASSED" "h1").1 "A" =
      some (.assetV ⟨"A", "Org1MSP", "AWAITING_QA", ["t0", "t1"]⟩) :=
  ⟨rfl, by decide⟩

/-- C1 (amended): the update operations enforce no stage guard.  On any
existing decodable asset, whatever its current stage (including the terminal
stages), `CreatePrintJobCompletion` succeeds and sets `AWAITING_QA`, and
`CreateQACertify` succeeds and sets `CERTIFIED`/`REJECTED` by test result;
only a missing asset is rejected, with a not-found error and no state
change. -/
theorem claim1_amended_no_stage_guard :
    (∀ (ctx : ChainCtx) (s : WState) (id bj insp hsh msp : String)
      (a : Asset), ctx.mspid = .ok msp → ctx.getErr id = none →
      s id = some (.assetV a) →
      ctx.putErr ("EVENT_" ++ ctx.txID) = none → ctx.putErr id = none →
      (createPrintJobCompletion ctx s id bj insp hsh).2 = .ok () ∧
      (createPrintJobCompletion ctx s id bj insp hsh).1 id =
        some (.assetV { a with
          CurrentLifecycleStage := "AWAITING_QA",
          HistoryTxIDs := a.HistoryTxIDs ++ [ctx.txID] })) ∧
    (∀ (ctx : ChainCtx) (s : WState) (id st res cid hsh msp : String)
      (a : Asset), ctx.mspid = .ok msp → ctx.getErr id = none →
      s id = some (.assetV a) →
      ctx.putErr ("EVENT_" ++ ctx.txID) = none → ctx.putErr id = none →
      (createQACertify ctx s id st res cid hsh).2 = .ok () ∧
      (createQACertify ctx s id st res cid hsh).1 id =
        some (.assetV { a with
          CurrentLifecycleStage :=
            if res = "CERTIFIED_FIT_FOR_USE" then "CERTIFIED"
            else "REJECTED",
          HistoryTxIDs := a.HistoryTxIDs ++ [ctx.txID] })) ∧
    (∀ (ctx : ChainCtx) (s : WState) (id bj insp hsh msp : String),
      ctx.mspid = .ok msp → ctx.getErr id = none → s id = none →
      createPrintJobCompletion ctx s id bj insp hsh =
        (s, .error ("the asset " ++ id ++ " does not exist"))) ∧
    (∀ (ctx : ChainCtx) (s : WState) (id st res cid hsh msp : String),
      ctx.mspid = .ok msp → ctx.getErr id = none → s id = none →
      createQACertify ctx s id st res cid hsh =
        (s, .error ("the asset " ++ id ++ " does not exist"))) := by
  refine ⟨?_, ?_, ?_, ?_⟩
  · intro ctx s id bj insp hsh msp a hm hg hv hpe hpk
    have h := updateAsset_success ctx s id
      (printCompletionEvent bj insp hsh) "AWAITING_QA" msp a hm hg hv hpe hpk
    constructor
    · unfold createPrintJobCompletion
      rw [h]
    · unfold createPrintJobCompletion
      rw [h]
      exact upd_self _ _ _
  · intro ctx s id st res cid hsh msp a hm hg hv hpe hpk
    have h := updateAsset_success ctx s id
      (qaCertifyEvent st res cid hsh)
      (if res = "CERTIFIED_FIT_FOR_USE" then "CERTIFIED" else "REJECTED")
      msp a hm hg hv hpe hpk
    constructor
    · unfold createQACertify
      rw [h]
    · unfold createQACertify
      rw [h]
      exact upd_self _ _ _
  · intro ctx s id bj insp hsh msp hm hg hv
    exact updateAsset_absent ctx s id _ _ msp hm hg hv
  · intro ctx s id st res cid hsh msp hm hg hv
    exact updateAsset_absent ctx s id _ _ msp hm hg hv

/-- Witness for the amended C1: a `CERTIFIED` asset is moved to
`AWAITING_QA`, and a missing asset yields a not-found error. -/
theorem claim1_amended_witness :
    (createPrintJobCompletion wCtx1 (wStateWith "CERTIFIED") "A" "B-1"
        "PASSED" "h1").1 "A" =
      some (.assetV { wAsset "CERTIFIED" with
        CurrentLifecycleStage := "AWAITING_QA",
        HistoryTxIDs := (wAsset "CERTIFIED").HistoryTxIDs ++ [wCtx1.txID] }) ∧
    (createQACertify wCtx1 (wStateWith "REJECTED") "A" "ASTM" "NO" "C-1"
        "h").1 "A" =
      some (.assetV { wAsset "REJECTED" with
        CurrentLifecycleStage :=
          if "NO" = "CERTIFIED_FIT_FOR_USE" then "CERTIFIED" else "REJECTED",
        HistoryTxIDs := (wAsset "REJECTED").HistoryTxIDs ++ [wCtx1.txID] }) ∧
    createPrintJobCompletion wCtx1 emptyState "A" "B-1" "PASSED" "h1" =
      (emptyState, .error ("the asset " ++ "A" ++ " does not exist")) ∧
    createQACertify wCtx1 emptyState "A" "ASTM" "NO" "C-1" "h" =
      (emptyState, .error ("the asset " ++ "A" ++ " does not exist")) :=
  ⟨(claim1_amended_no_stage_guard.1 wCtx1 (wStateWith "CERTIFIED") "A" "B-1"
      "PASSED" "h1" "Org1MSP" (wAsset "CERTIFIED") rfl rfl (by decide) rfl
      rfl).2,
   (claim1_amended_no_stage_guard.2.1 wCtx1 (wStateWith "REJECTED") "A"
      "ASTM" "NO" "C-1" "h" "Org1MSP" (wAsset "REJECTED") rfl rfl (by decide)
      rfl rfl).2,
   claim1_amended_no_stage_guard.2.2.1 wCtx1 emptyState "A" "B-1" "PASSED"
     "h1" "Org1MSP" rfl rfl rfl,
   claim1_amended_no_stage_guard.2.2.2 wCtx1 emptyState "A" "ASTM" "NO" "C-1"
     "h" "Org1MSP" rfl rfl rfl⟩

/-- C4: each successful update appends exactly one transaction id to
`historyTxIDs`; each creation produces a single-entry history; and across any
single operation an asset's stored history is only ever extended at the end —
it never shrinks and prior entries keep their value and position. -/
theorem claim4_append_only_history :
    (∀ (ctx : ChainCtx) (s : WState) (id bj insp hsh msp : String)
      (a : Asset), ctx.mspid = .ok msp → ctx.getErr id = none →
      s id = some (.assetV a) →
      ctx.putErr ("EVENT_" ++ ctx.txID) = none → ctx.putErr id = none →
      ∃ a2, (createPrintJobCompletion ctx s id bj insp hsh).1 id =
          some (.assetV a2) ∧
        a2.HistoryTxIDs = a.HistoryTxIDs ++ [ctx.txID]) ∧
    (∀ (ctx : ChainCtx) (s : WState) (id st res cid hsh msp : String)
      (a : Asset), ctx.mspid = .ok msp → ctx.getErr id = none →
      s id = some (.assetV a) →
      ctx.putErr ("EVENT_" ++ ctx.txID) = none → ctx.putErr id = none →
      ∃ a2, (createQACertify ctx s id st res cid hsh).1 id =
          some (.assetV a2) ∧
        a2.HistoryTxIDs = a.HistoryTxIDs ++ [ctx.txID]) ∧
    (∀ (ctx : ChainCtx) (s : WState) (id p1 p2 p3 p4 msp : String),
      ctx.mspid = .ok msp → ctx.getErr id = none → s id = none →
      ctx.putErr ("EVENT_" ++ ctx.txID) = none → ctx.putErr id = none →
      ∃ a2, (createMaterialCertification ctx s id p1 p2 p3 p4).1 id =
          some (.assetV a2) ∧
        a2.HistoryTxIDs = [ctx.txID]) ∧
    (∀ (ctx : ChainCtx) (s : WState) (id p1 p2 p3 p4 msp : String),
      ctx.mspid = .ok msp → ctx.getErr ("NAIVE_" ++ id) = none →
      s ("NAIVE_" ++ id) = none →
      ctx.putErr ("EVENT_" ++ ctx.txID) = none →
      ctx.putErr ("NAIVE_" ++ id) = none →
      ∃ a2, (createMaterialCertificationNaive ctx s id p1 p2 p3 p4).1
          ("NAIVE_" ++ id) = some (.assetV a2) ∧
        a2.HistoryTxIDs = [ctx.txID]) ∧
    (∀ (ctx : ChainCtx) (s : WState) (id p1 p2 p3 p4 p5 msp : String),
      ctx.mspid = .ok msp → ctx.getErr id = none → s id = none →
      ctx.putErr ("EVENT_" ++ ctx.txID) = none → ctx.putErr id = none →
      ∃ a2, (createPrintJobStart ctx s id p1 p2 p3 p4 p5).1 id =
          some (.assetV a2) ∧
        a2.HistoryTxIDs = [ctx.txID]) ∧
    (∀ (ctx : ChainCtx) (op : Op) (s : WState) (k : String) (a a2 : Asset),
      s k = some (.assetV a) → (applyOp ctx op s).1 k = some (.assetV a2) →
      ∃ rest, a2.HistoryTxIDs = a.HistoryTxIDs ++ rest) := by
  refine ⟨?_, ?_, ?_, ?_, ?_, ?_⟩
  · intro ctx s id bj insp hsh msp a hm hg hv hpe hpk
    have h := updateAsset_success ctx s id
      (printCompletionEvent bj insp hsh) "AWAITING_QA" msp a hm hg hv hpe hpk
    refine ⟨{ a with
      CurrentLifecycleStage := "AWAITING_QA",
      HistoryTxIDs := a.HistoryTxIDs ++ [ctx.txID] }, ?_, rfl⟩
    unfold createPrintJobCompletion
    rw [h]
    exact upd_self _ _ _
  · intro ctx s id st res cid hsh msp a hm hg hv hpe hpk
    have h := updateAsset_success ctx s id
      (qaCertifyEvent st res cid hsh)
      (if res = "CERTIFIED_FIT_FOR_USE" then "CERTIFIED" else "REJECTED")
      msp a hm hg hv hpe hpk
    refine ⟨{ a with
      CurrentLifecycleStage :=
        if res = "CERTIFIED_FIT_FOR_USE" then "CERTIFIED" else "REJECTED",
      HistoryTxIDs := a.HistoryTxIDs ++ [ctx.txID] }, ?_, rfl⟩
    unfold createQACertify
    rw [h]
    exact upd_self _ _ _
  · intro ctx s id p1 p2 p3 p4 msp hm hg hv hpe hpk
    have h := createAsset_success ctx s id
      (matCertEvent p1 p2 p3 p4) "MATERIAL_CERTIFIED" msp hm hg hv hpe hpk
    refine ⟨⟨id, msp, "MATERIAL_CERTIFIED", [ctx.txID]⟩, ?_, rfl⟩
    unfold createMaterialCertification
    rw [h]
    exact upd_self _ _ _
  · intro ctx s id p1 p2 p3 p4 msp hm hg hv hpe hpk
    have h := createAsset_success ctx s ("NAIVE_" ++ id)
      (naiveCertEvent p1 p2 p3 p4) "MATERIAL_CERTIFIED_NAIVE" msp hm hg hv
      hpe hpk
    refine ⟨⟨"NAIVE_" ++ id, msp, "MATERIAL_CERTIFIED_NAIVE", [ctx.txID]⟩,
      ?_, rfl⟩
    unfold createMaterialCertificationNaive
    rw [h]
    exact upd_self _ _ _
  · intro ctx s id p1 p2 p3 p4 p5 msp hm hg hv hpe hpk
    have h := createAsset_success ctx s id
      (printStartEvent p1 p2 p3 p4 p5) "IN_PRODUCTION" msp hm hg hv hpe hpk
    refine ⟨⟨id, msp, "IN_PRODUCTION", [ctx.txID]⟩, ?_, rfl⟩
    unfold createPrintJobStart
    rw [h]
    exact upd_self _ _ _
  · intro ctx op s k a a2 h1 h2
    exact applyOp_hist_extend ctx op s k a a2 h1 h2

/-- Witness for C4 at concrete operations: one update appends one entry, one
creation yields a single-entry history, and a concrete `applyOp` run extends
the stored history. -/
theorem claim4_witness :
    (∃ a2, (createPrintJobCompletion wCtx1 (wStateWith "IN_PRODUCTION") "A"
        "B-1" "PASSED" "h1").1 "A" = some (.assetV a2) ∧
      a2.HistoryTxIDs = (wAsset "IN_PRODUCTION").HistoryTxIDs ++
        [wCtx1.txID]) ∧
    (∃ a2, (createMaterialCertification wCtx1 emptyState "A" "m" "b" "s"
        "h").1 "A" = some (.assetV a2) ∧ a2.HistoryTxIDs = [wCtx1.txID]) ∧
    (∃ rest, (["t0", "t1"] : List String) = ["t0"] ++ rest) :=
  ⟨claim4_append_only_history.1 wCtx1 (wStateWith "IN_PRODUCTION") "A" "B-1"
     "PASSED" "h1" "Org1MSP" (wAsset "IN_PRODUCTION") rfl rfl (by decide)
     rfl rfl,
   claim4_append_only_history.2.2.1 wCtx1 emptyState "A" "m" "b" "s" "h"
     "Org1MSP" rfl rfl rfl rfl rfl,
   (by
     have h := claim4_append_only_history.2.2.2.2.2 wCtx1
       (Op.printComplete "A" "B-1" "PASSED" "h1") (wStateWith "IN_PRODUCTION")
       "A" (wAsset "IN_PRODUCTION")
       ⟨"A", "Org1MSP", "AWAITING_QA", ["t0", "t1"]⟩ (by decide) (by decide)
     exact h)⟩

/-- C5 counterexample: from the empty ledger, two successful chaincode
operations (a lightweight creation, then a print-job completion whose caller
supplies the asset id `EVENT_t1`) reach a state in which asset `A` carries
history entry `t1` while the key `EVENT_t1` holds an asset record rather
than a `ProvenanceEvent` — the entry no longer resolves to a stored event. -/
theorem claim5_counterexample :
    (createMaterialCertification wCtx1 emptyState "A" "m" "b" "s" "h").2 =
      .ok () ∧
    (createPrintJobCompletion wCtx2
        (createMaterialCertification wCtx1 emptyState "A" "m" "b" "s" "h").1
        "EVENT_t1" "B" "I" "h2").2 = .ok () ∧
    (createPrintJobCompletion wCtx2
        (createMaterialCertification wCtx1 emptyState "A" "m" "b" "s" "h").1
        "EVENT_t1" "B" "I" "h2").1 "A" =
      some (.assetV ⟨"A", "Org1MSP", "MATERIAL_CERTIFIED", ["t1"]⟩) ∧
    (createPrintJobCompletion wCtx2
        (createMaterialCertification wCtx1 emptyState "A" "m" "b" "s" "h").1
        "EVENT_t1" "B" "I" "h2").1 ("EVENT_" ++ "t1") =
      some (.assetV ⟨"", "", "AWAITING_QA", ["t2"]⟩) :=
  ⟨rfl, rfl, by decide, by decide⟩

/-- C5 (amended): provided no caller-supplied asset key lies in the `EVENT_`
namespace, every reachable state keeps every history entry of every stored
asset resolving to a stored `ProvenanceEvent` under `EVENT_` + txID; and in
every operation the event write happens first — if it fails, the world state
is left completely unchanged (no asset is written or updated). -/
theorem claim5_amended_entries_resolve :
    (∀ s : WState, Reached s → ∀ (k : String) (a : Asset),
      s k = some (.assetV a) → ∀ t ∈ a.HistoryTxIDs,
      ∃ e, s ("EVENT_" ++ t) = some (.eventV e)) ∧
    (∀ (ctx : ChainCtx) (op : Op) (s : WState) (msg : String),
      ctx.putErr ("EVENT_" ++ ctx.txID) = some msg →
      (applyOp ctx op s).1 = s) := by
  constructor
  · intro s hs k a hk t ht
    have hg := reached_goodState s hs
    cases hf : hasEventKeyForm k.data with
    | true =>
      obtain ⟨e, he⟩ := hg.1 k _ hk hf
      exact absurd he (by simp)
    | false =>
      obtain ⟨a0, ha0, hres⟩ := hg.2 k _ hk hf
      have ha : a = a0 := by simpa using ha0
      exact hres t (ha ▸ ht)
  · intro ctx op s msg hpe
    cases op with
    | matCert x mt mb sup hh =>
      exact createAsset_event_put_fail ctx s x _ _ msg hpe
    | matCertNaive x mt mb sup p =>
      exact createAsset_event_put_fail ctx s ("NAIVE_" ++ x) _ _ msg hpe
    | printStart x m mu d b hh =>
      exact createAsset_event_put_fail ctx s x _ _ msg hpe
    | printComplete x b i hh =>
      exact updateAsset_event_put_fail ctx s x _ _ msg hpe
    | qaCertify x st r c hh =>
      exact updateAsset_event_put_fail ctx s x _ _ msg hpe

/-- Witness for the amended C5: after one concrete creation the single
history entry resolves, and a failing event write leaves the ledger
untouched. -/
theorem claim5_amended_witness :
    (∃ e, (applyOp wCtx1 (Op.matCert "A" "m" "b" "s" "h") emptyState).1
      ("EVENT_" ++ "t1") = some (.eventV e)) ∧
    (applyOp wCtxFail (Op.matCert "A" "m" "b" "s" "h") emptyState).1 =
      emptyState :=
  ⟨claim5_amended_entries_resolve.1
      (applyOp wCtx1 (Op.matCert "A" "m" "b" "s" "h") emptyState).1
      (Reached.step wCtx1 (Op.matCert "A" "m" "b" "s" "h") emptyState
        Reached.init rfl)
      "A" ⟨"A", "Org1MSP", "MATERIAL_CERTIFIED", ["t1"]⟩ (by decide)
      "t1" (by decide),
   claim5_amended_entries_resolve.2 wCtxFail
     (Op.matCert "A" "m" "b" "s" "h") emptyState "put failed" rfl⟩

/-- C8 counterexample: the lightweight and naive asset-key ranges are not
disjoint for every pair of ids — a lightweight creation with id `NAIVE_A`
occupies the very key the naive creation of id `A` derives, so the naive
creation is blocked with an already-exists error. -/
theorem claim8_counterexample :
    (createMaterialCertification wCtx1 emptyState "NAIVE_A" "m" "b" "s"
        "h").2 = .ok () ∧
    (createMaterialCertificationNaive wCtx2
        (createMaterialCertification wCtx1 emptyState "NAIVE_A" "m" "b" "s"
          "h").1
        "A" "m" "b" "s" "p").2 =
      .error ("the asset " ++ ("NAIVE_" ++ "A") ++ " already exists") :=
  ⟨rfl, rfl⟩

/-- C8 (amended): the naive model derives its key by prefixing `NAIVE_`, so
the two models' keys are disjoint — and their creations cannot block each
other — exactly when the lightweight id does not itself begin with `NAIVE_`:
under that proviso a lightweight creation and a subsequent naive creation
both succeed on a ledger where both keys were free. -/
theorem claim8_amended_namespaces (ctx1 ctx2 : ChainCtx) (s : WState)
    (id1 id2 p1 p2 p3 p4 q1 q2 q3 q4 msp1 msp2 : String)
    (hform : hasNaiveKeyForm id1.data = false)
    (hm1 : ctx1.mspid = .ok msp1) (hg1 : ctx1.getErr id1 = none)
    (hk1 : s id1 = none)
    (hpe1 : ctx1.putErr ("EVENT_" ++ ctx1.txID) = none)
    (hpk1 : ctx1.putErr id1 = none)
    (hm2 : ctx2.mspid = .ok msp2)
    (hg2 : ctx2.getErr ("NAIVE_" ++ id2) = none)
    (hk2 : s ("NAIVE_" ++ id2) = none)
    (hpe2 : ctx2.putErr ("EVENT_" ++ ctx2.txID) = none)
    (hpk2 : ctx2.putErr ("NAIVE_" ++ id2) = none) :
    id1 ≠ "NAIVE_" ++ id2 ∧
    (createMaterialCertification ctx1 s id1 p1 p2 p3 p4).2 = .ok () ∧
    (createMaterialCertificationNaive ctx2
        (createMaterialCertification ctx1 s id1 p1 p2 p3 p4).1
        id2 q1 q2 q3 q4).2 = .ok () := by
  have hne : id1 ≠ "NAIVE_" ++ id2 := ne_naive_key_of_form_false id1 id2 hform
  have h1 := createAsset_success ctx1 s id1
    (matCertEvent p1 p2 p3 p4) "MATERIAL_CERTIFIED" msp1 hm1 hg1 hk1 hpe1 hpk1
  refine ⟨hne, ?_, ?_⟩
  · unfold createMaterialCertification
    rw [h1]
  · have he : (createMaterialCertification ctx1 s id1 p1 p2 p3 p4).1 =
        upd (upd s ("EVENT_" ++ ctx1.txID)
            (.eventV { matCertEvent p1 p2 p3 p4 msp1 with
              Timestamp := ctx1.now }))
          id1 (.assetV ⟨id1, msp1, "MATERIAL_CERTIFIED", [ctx1.txID]⟩) := by
      unfold createMaterialCertification
      rw [h1]
    have hS1 : (createMaterialCertification ctx1 s id1 p1 p2 p3 p4).1
        ("NAIVE_" ++ id2) = none := by
      rw [he, upd_ne _ _ _ _ (Ne.symm hne),
        upd_ne _ _ _ _ (naive_key_ne_event_key id2 ctx1.txID)]
      exact hk2
    have h2 := createAsset_success ctx2
      (createMaterialCertification ctx1 s id1 p1 p2 p3 p4).1
      ("NAIVE_" ++ id2) (naiveCertEvent q1 q2 q3 q4)
      "MATERIAL_CERTIFIED_NAIVE" msp2 hm2 hg2 hS1 hpe2 hpk2
    unfold createMaterialCertificationNaive
    rw [h2]

/-- Witness for the amended C8: with lightweight id `A` (not `NAIVE_`
prefixed) and naive id `A`, both creations succeed on the empty ledger. -/
theorem claim8_amended_witness :
    ("A" : String) ≠ "NAIVE_" ++ "A" ∧
    (createMaterialCertification wCtx1 emptyState "A" "m" "b" "s" "h").2 =
      .ok () ∧
    (createMaterialCertificationNaive wCtx2
        (createMaterialCertification wCtx1 emptyState "A" "m" "b" "s" "h").1
        "A" "m" "b" "s" "p").2 = .ok () :=
  claim8_amended_namespaces wCtx1 wCtx2 emptyState "A" "A" "m" "b" "s" "h"
    "m" "b" "s" "p" "Org1MSP" "Org2MSP" rfl rfl rfl rfl rfl rfl rfl rfl rfl
    rfl rfl

/-- C9: the harness's throughput loop batches the synthesized calls (the
batches exactly partition the call list); if every call succeeds the
reported throughput is the operation count divided by the elapsed seconds,
and if some batch contains a failing call the loop stops at that batch —
later batches are never submitted — and the reported throughput is zero. -/
theorem claim9_fail_fast_throughput {α : Type} (ok : α → Bool)
    (txs : List α) (c ms : Nat) (hc : 0 < c) :
    (chunksOf c txs).flatten = txs ∧
    ((∀ b ∈ chunksOf c txs, b.all ok = true) →
      testThroughput ok txs c ms =
        ((txs.length : ℚ) / ((ms : ℚ) / 1000), chunksOf c txs)) ∧
    (∀ (pre : List (List α)) (b : List α) (post : List (List α)),
      chunksOf c txs = pre ++ b :: post →
      (∀ x ∈ pre, x.all ok = true) → b.all ok = false →
      (testThroughput ok txs c ms).1 = 0 ∧
      (testThroughput ok txs c ms).2 = pre ++ [b]) := by
  refine ⟨chunksOf_flatten c hc txs, fun hall => ?_,
    fun pre b post hdec hpre hb => ?_⟩
  · simp [testThroughput, submitBatches_all ok _ hall]
  · have hsb := submitBatches_fail ok pre b post hpre hb
    constructor
    · simp [testThroughput, hdec, hsb]
    · simp [testThroughput, hdec, hsb]

/-- Witness for C9: a clean run of four calls in two batches over two
seconds reports two transactions per second; a run whose second batch
contains a failing call reports zero and submits no batch after it. -/
theorem claim9_witness :
    (chunksOf 2 ([0, 0, 1, 0] : List Nat)).flatten = [0, 0, 1, 0] ∧
    testThroughput (fun n : Nat => n == 0) [0, 0, 0, 0] 2 2000 =
      ((([0, 0, 0, 0] : List Nat).length : ℚ) / ((2000 : ℚ) / 1000),
        chunksOf 2 ([0, 0, 0, 0] : List Nat)) ∧
    ((testThroughput (fun n : Nat => n == 0) [0, 0, 1, 0] 2 2000).1 = 0 ∧
      (testThroughput (fun n : Nat => n == 0) [0, 0, 1, 0] 2 2000).2 =
        [[0, 0]] ++ [[1, 0]]) :=
  ⟨(claim9_fail_fast_throughput (fun n : Nat => n == 0) [0, 0, 1, 0] 2 2000
      (by decide)).1,
   (claim9_fail_fast_throughput (fun n : Nat => n == 0) [0, 0, 0, 0] 2 2000
      (by decide)).2.1 (by decide),
   (claim9_fail_fast_throughput (fun n : Nat => n == 0) [0, 0, 1, 0] 2 2000
      (by decide)).2.2 [[0, 0]] [1, 0] [] (by decide) (by decide)
      (by decide)⟩
